import Mathlib

/-!
Verification of the API proxy/caching/rate-limiting gateway of the finboard
dashboard. The definitions below are a shallow embedding of
`src/app/api/proxy/route.ts` (the `GET` handler, `isRateLimited`, and the
response classification of its try/catch block) and of
`src/config/apiRateLimits.ts` (`API_RATE_LIMITS`, `getRateLimitConfig`,
`shouldCacheApi`, `getCacheDuration`). JavaScript `Map`s are modelled as
insertion-ordered association lists with `Map.get`/`Map.set` semantics,
timestamps as `Int` (so `now - timestamp` matches JS arithmetic), and the
outcome of the outbound `fetch` (plus `response.json()`) as an explicit
`FetchResult` parameter. `new URL(url)` succeeding is modelled by a
`validURL` oracle passed to the handler.
-/

namespace Finboard

/-- JS `String.prototype.startsWith`-style check on character lists. -/
def listLeadsWith : List Char → List Char → Bool
  | [], _ => true
  | _ :: _, [] => false
  | a :: asx, b :: bs => a == b && listLeadsWith asx bs

/-- Helper for `strIncludes`: does `sub` occur contiguously in `s`? -/
def listOccursIn (sub : List Char) : List Char → Bool
  | [] => listLeadsWith sub []
  | b :: t => listLeadsWith sub (b :: t) || listOccursIn sub t

/-- JS `s.includes(sub)`: substring containment (empty `sub` always matches). -/
def strIncludes (s sub : String) : Bool :=
  listOccursIn sub.data s.data

/-- JS `s.toLowerCase()` (ASCII-faithful model). -/
def strToLower (s : String) : String :=
  ⟨s.data.map Char.toLower⟩

/-- JS truthiness of a `string | null` value: truthy iff present and nonempty. -/
def truthy : Option String → Bool
  | none => false
  | some s => !(s == "")

/-- One record of `API_RATE_LIMITS` in `src/config/apiRateLimits.ts`. -/
structure ApiRateLimitConfig where
  domain : String
  maxRequests : Nat
  windowMs : Nat
  cacheMs : Nat
  description : String
deriving Repr, DecidableEq

/-- The configured provider table (`src/config/apiRateLimits.ts`). -/
def API_RATE_LIMITS : List ApiRateLimitConfig :=
  [{ domain := "coingecko.com", maxRequests := 3, windowMs := 60000,
     cacheMs := 300000,
     description := "CoinGecko free tier: 3 requests per minute" }]

/-- `getRateLimitConfig(url)`: first config whose domain is a substring of `url`. -/
def getRateLimitConfig (url : String) : Option ApiRateLimitConfig :=
  API_RATE_LIMITS.find? (fun config => strIncludes url config.domain)

/-- `shouldCacheApi(url)`: a URL is cacheable iff some config matches it. -/
def shouldCacheApi (url : String) : Bool :=
  (getRateLimitConfig url).isSome

/-- `getCacheDuration(url)`: the matching config's `cacheMs`, or 0. -/
def getCacheDuration (url : String) : Nat :=
  match getRateLimitConfig url with
  | some config => config.cacheMs
  | none => 0

/-- A value of the in-memory `cache` map: payload, capture time, TTL (ms). -/
structure CacheEntry where
  data : String
  timestamp : Int
  ttl : Int
deriving Repr, DecidableEq

/-- A value of the `requestQueue` rate-limiter map: window start and count. -/
structure RateEntry where
  timestamp : Int
  count : Nat
deriving Repr, DecidableEq

/-- JS `Map.get`: the value stored under `k`, if any. -/
def jget {α : Type} (m : List (String × α)) (k : String) : Option α :=
  (m.find? (fun p => p.1 == k)).map (fun p => p.2)

/-- JS `Map.set`: replace in place if the key exists, else append. -/
def jset {α : Type} (m : List (String × α)) (k : String) (v : α) :
    List (String × α) :=
  if (m.find? (fun p => p.1 == k)).isSome then
    m.map (fun p => if p.1 == k then (k, v) else p)
  else m ++ [(k, v)]

/-- `isRateLimited(url)` from `route.ts`, with the `Date.now()` value and the
`requestQueue` map made explicit; returns the verdict and the updated map. -/
def isRateLimited (now : Int) (requestQueue : List (String × RateEntry))
    (url : String) : Bool × List (String × RateEntry) :=
  match getRateLimitConfig url with
  | none => (false, requestQueue)
  | some config =>
    match jget requestQueue url with
    | none => (false, jset requestQueue url { timestamp := now, count := 1 })
    | some entry =>
      if now - entry.timestamp > (config.windowMs : Int) then
        (false, jset requestQueue url { timestamp := now, count := 1 })
      else if entry.count ≥ config.maxRequests then
        (true, requestQueue)
      else
        (false, jset requestQueue url
          { timestamp := entry.timestamp, count := entry.count + 1 })

/-- A JavaScript exception as observed by the catch block of the handler:
`error.name`, `error.message` (missing modelled as `""`), `error.code`. -/
structure JsError where
  name : String
  message : String
  code : String
deriving Repr, DecidableEq

/-- Outcome of `await response.json()`: decoded payload, or the thrown
`SyntaxError` when the body is not valid JSON. -/
inductive JsonResult where
  | ok (data : String)
  | failed (e : JsError)
deriving Repr, DecidableEq

/-- Outcome of the outbound `fetch` call: an exception (timeout, abort,
network failure), or a response with status, status text, `content-type`
header, body text, and the result of decoding the body as JSON. -/
inductive FetchResult where
  | thrown (e : JsError)
  | resp (status : Nat) (statusText : String) (contentType : Option String)
      (bodyText : String) (json : JsonResult)
deriving Repr, DecidableEq

/-- Body of a gateway response: a JSON payload, or an `{ error: ... }` object. -/
inductive Body where
  | data (payload : String)
  | error (message : String)
deriving Repr, DecidableEq

/-- A response produced by the handler: HTTP status, body, and the headers
explicitly passed to `NextResponse.json` (error responses pass none). -/
structure GatewayResponse where
  status : Nat
  body : Body
  headers : List (String × String)
deriving Repr, DecidableEq

/-- Result of one run of the `GET` handler: the response, the cache and
rate-limiter maps after the run, whether the outbound fetch was performed,
and the headers that were attached to the outbound request (empty when no
fetch happened). -/
structure GetResult where
  response : GatewayResponse
  cache : List (String × CacheEntry)
  requestQueue : List (String × RateEntry)
  fetched : Bool
  sentHeaders : List (String × String)
deriving Repr, DecidableEq

/-- The three query parameters the handler reads from the request URL. -/
structure ProxyRequest where
  url : Option String
  skipCache : Option String
  apiKey : Option String
deriving Repr, DecidableEq

/-- The cache key expression used (twice, verbatim) in `route.ts`:
`apiKey ? url + ":" + apiKey : url` with JS truthiness on `apiKey`. -/
def cacheKey (url : String) (apiKey : Option String) : String :=
  if truthy apiKey then url ++ ":" ++ apiKey.getD "" else url

/-- The CORS headers attached to cache-hit and success responses. -/
def corsHeaders : List (String × String) :=
  [("Access-Control-Allow-Origin", "*"),
   ("Access-Control-Allow-Methods", "GET, OPTIONS"),
   ("Access-Control-Allow-Headers", "Content-Type")]

/-- The headers built for the outbound `fetch`: base headers, `X-Api-Key`
when the caller supplied a truthy `apiKey`, `Referer` for coingecko URLs. -/
def outboundHeaders (url : String) (apiKey : Option String) :
    List (String × String) :=
  let base := [("User-Agent", "Finboard-Dashboard/1.0"),
               ("Accept", "application/json"),
               ("Accept-Language", "en-US,en;q=0.9")]
  let withKey :=
    if truthy apiKey then base ++ [("X-Api-Key", apiKey.getD "")] else base
  if strIncludes url "coingecko.com" then
    withKey ++ [("Referer", "https://coingecko.com")]
  else withKey

/-- The catch-block classification of a thrown error into a message. -/
def classifyCatch (e : JsError) : String :=
  if e.name == "AbortError" || e.name == "TimeoutError" then
    "Request timed out. Please check if the API is accessible."
  else if strIncludes e.message "fetch" then
    "Network error. Please check the URL and your internet connection."
  else if e.code == "ENOTFOUND" || e.code == "ECONNREFUSED" then
    "Unable to connect to the API. Please check if the URL is correct and accessible."
  else if e.message == "" then "Failed to fetch the resource"
  else e.message

/-- Message of the upstream-429 response (distinct from the local denial). -/
def upstreamThrottleMessage : String :=
  "The external API is rate limiting requests. Please try again later."

/-- Message of the non-JSON content-type (format error) response. -/
def formatErrorMessage : String := "API did not return JSON data"

/-- Does the body of an upstream 400 suggest a missing/invalid credential?
The handler lower-cases the text and looks for three substrings. -/
def suggestsCredentialIssue (bodyText : String) : Bool :=
  let lower := strToLower bodyText
  strIncludes lower "api key" || strIncludes lower "authentication" ||
    strIncludes lower "unauthorized"

/-- The error message built for a non-ok upstream response. -/
def upstreamErrorMessage (status : Nat) (statusText bodyText : String) :
    String :=
  if status == 401 then "Unauthorized: API key required or invalid"
  else if status == 403 then
    "Forbidden: Invalid API key or insufficient permissions"
  else if status == 400 && suggestsCredentialIssue bodyText then
    "Bad Request: API key required for this endpoint"
  else "HTTP error! status: " ++ toString status ++ " - " ++ statusText

/-- Message of the local rate-limit denial, built from the matched config. -/
def localRateLimitMessage (url : String) : String :=
  match getRateLimitConfig url with
  | some config =>
    config.description ++ ". Please wait before making another request."
  | none => "Rate limit exceeded. Please wait before making another request."

/-- The content-type test of the handler: `contentType` is present and
includes `application/json` (the negation of the guard
`!contentType || !contentType.includes('application/json')`). -/
def ctIsJson : Option String → Bool
  | none => false
  | some ct => strIncludes ct "application/json"

/-- The try/catch block of the handler (lines after the rate-limit probe):
classify the fetch outcome, write the cache on success, build the response. -/
def handleFetch (url : String) (apiKey : Option String) (now : Int)
    (cache : List (String × CacheEntry)) (q : List (String × RateEntry))
    (fr : FetchResult) : GetResult :=
  let sent := outboundHeaders url apiKey
  match fr with
  | .thrown e =>
    { response := { status := 500, body := .error (classifyCatch e),
                    headers := [] },
      cache := cache, requestQueue := q, fetched := true,
      sentHeaders := sent }
  | .resp status statusText contentType bodyText json =>
    if status == 429 then
      { response := { status := 429, body := .error upstreamThrottleMessage,
                      headers := [] },
        cache := cache, requestQueue := q, fetched := true,
        sentHeaders := sent }
    else if !(200 ≤ status && status ≤ 299) then
      { response := { status := status,
                      body := .error
                        (upstreamErrorMessage status statusText bodyText),
                      headers := [] },
        cache := cache, requestQueue := q, fetched := true,
        sentHeaders := sent }
    else
      if !(ctIsJson contentType) then
        { response := { status := 400, body := .error formatErrorMessage,
                        headers := [] },
          cache := cache, requestQueue := q, fetched := true,
          sentHeaders := sent }
      else
        match json with
        | .failed e =>
          { response := { status := 500, body := .error (classifyCatch e),
                          headers := [] },
            cache := cache, requestQueue := q, fetched := true,
            sentHeaders := sent }
        | .ok data =>
          let shouldCache := shouldCacheApi url
          let cache2 :=
            if shouldCache then
              jset cache (cacheKey url apiKey)
                { data := data, timestamp := now,
                  ttl := (getCacheDuration url : Int) }
            else cache
          let cacheSeconds :=
            if shouldCache then getCacheDuration url / 1000 else 0
          { response :=
              { status := 200, body := Body.data data,
                headers :=
                  [("X-Cache", if shouldCache then "MISS" else "NO-CACHE"),
                   ("Cache-Control",
                    if shouldCache then
                      "public, max-age=" ++ toString cacheSeconds
                    else "no-cache")] ++ corsHeaders },
            cache := cache2, requestQueue := q, fetched := true,
            sentHeaders := sent }

/-- The `GET` handler of `route.ts`. `validURL` models `new URL(url)`
succeeding; `fr` is the outcome the outbound fetch would have; `now` is
`Date.now()`; `cache` and `requestQueue` are the module-level maps. -/
def GET (validURL : String → Bool) (fr : FetchResult) (now : Int)
    (cache : List (String × CacheEntry))
    (requestQueue : List (String × RateEntry)) (req : ProxyRequest) :
    GetResult :=
  let skipCache := req.skipCache == some "true"
  match req.url with
  | none =>
    { response := { status := 400, body := .error "URL parameter is required",
                    headers := [] },
      cache := cache, requestQueue := requestQueue, fetched := false,
      sentHeaders := [] }
  | some url =>
    if !(validURL url) then
      { response := { status := 400, body := .error "Invalid URL provided",
                      headers := [] },
        cache := cache, requestQueue := requestQueue, fetched := false,
        sentHeaders := [] }
    else
      let probe : Option CacheEntry :=
        if !skipCache && shouldCacheApi url then
          jget cache (cacheKey url req.apiKey)
        else none
      match probe with
      | some cached =>
        let cacheDuration := getCacheDuration url / 1000
        { response :=
            { status := 200, body := Body.data cached.data,
              headers :=
                [("X-Cache", "HIT"),
                 ("Cache-Control",
                  "public, max-age=" ++ toString cacheDuration)] ++
                  corsHeaders },
          cache := cache, requestQueue := requestQueue, fetched := false,
          sentHeaders := [] }
      | none =>
        let rl := isRateLimited now requestQueue url
        if rl.1 then
          { response := { status := 429,
                          body := .error (localRateLimitMessage url),
                          headers := [] },
            cache := cache, requestQueue := rl.2, fetched := false,
            sentHeaders := [] }
        else
          handleFetch url req.apiKey now cache rl.2 fr

/-- The periodic reaper body (`setInterval` callback): evict cache entries
with `now - timestamp > ttl` and rate entries older than 120000 ms. -/
def reaperSweep (now : Int) (cache : List (String × CacheEntry))
    (q : List (String × RateEntry)) :
    List (String × CacheEntry) × List (String × RateEntry) :=
  (cache.filter (fun p => !(now - p.2.timestamp > p.2.ttl)),
   q.filter (fun p => !(now - p.2.timestamp > 120000)))

/-- Did this run serve its payload from the cache (cache-hit marker)? -/
def servedFromCache (r : GetResult) : Bool :=
  ("X-Cache", "HIT") ∈ r.response.headers

/-- Is this body a success payload (rather than an `{ error: ... }` object)? -/
def Body.isData : Body → Bool
  | Body.data _ => true
  | Body.error _ => false

/- ------------------------------------------------------------------ -/
/- Theorems.                                                           -/
/- ------------------------------------------------------------------ -/

/-- The provider table has a single entry, so a lookup returns either
nothing or the coingecko config. -/
theorem getRateLimitConfig_cases (url : String) :
    getRateLimitConfig url = none ∨
      getRateLimitConfig url = some
        { domain := "coingecko.com", maxRequests := 3, windowMs := 60000,
          cacheMs := 300000,
          description := "CoinGecko free tier: 3 requests per minute" } := by
  unfold getRateLimitConfig API_RATE_LIMITS
  cases h : strIncludes url "coingecko.com" <;> simp [List.find?, h]

/-- C2 counterexample: the cache key for a supplied apiKey joins URL and key
with a single ":", not with "::" as the claim states. -/
theorem C2_counterexample :
    cacheKey "https://api.coingecko.com/simple/price" (some "k") =
      "https://api.coingecko.com/simple/price" ++ ":" ++ "k" ∧
    cacheKey "https://api.coingecko.com/simple/price" (some "k") ≠
      "https://api.coingecko.com/simple/price" ++ "::" ++ "k" := by
  decide

/-- C2 (amended): the cache key used by both the probe and the write is
`url ++ ":" ++ apiKey` when a nonempty apiKey is supplied and `url` alone
otherwise; two requests to the same URL with different apiKey values
(including supplied vs. absent) never share a cache key. -/
theorem C2_cache_key_format (url k k1 k2 : String)
    (hk : k ≠ "") (h1 : k1 ≠ "") (h2 : k2 ≠ "") (hne : k1 ≠ k2) :
    cacheKey url (some k) = url ++ ":" ++ k ∧
    cacheKey url none = url ∧
    cacheKey url (some k1) ≠ cacheKey url (some k2) ∧
    cacheKey url (some k) ≠ cacheKey url none := by
  have key_eq : ∀ s : String, s ≠ "" →
      cacheKey url (some s) = url ++ ":" ++ s := by
    intro s hs
    simp [cacheKey, truthy, hs]
  refine ⟨key_eq k hk, by simp [cacheKey, truthy], ?_, ?_⟩
  · rw [key_eq k1 h1, key_eq k2 h2]
    intro h
    apply hne
    apply String.ext
    have h2d := congrArg String.data h
    simpa [String.data_append] using h2d
  · rw [key_eq k hk]
    simp only [cacheKey, truthy, Bool.false_eq_true, if_false]
    intro h
    have hlen := congrArg String.length h
    rw [String.length_append, String.length_append] at hlen
    have hone : (":" : String).length = 1 := by decide
    omega

/-- C2 witness: the amended statement evaluated at a concrete URL and keys. -/
theorem C2_cache_key_format_witness :
    cacheKey "u" (some "a") = "u" ++ ":" ++ "a" ∧
    cacheKey "u" none = "u" ∧
    cacheKey "u" (some "a") ≠ cacheKey "u" (some "b") ∧
    cacheKey "u" (some "a") ≠ cacheKey "u" none :=
  C2_cache_key_format "u" "a" "a" "b" (by decide) (by decide) (by decide)
    (by decide)

/-- C3 counterexample: at `now - windowStart = windowMs` exactly (claim:
fresh window, allowed) the code is still inside the old window and, with the
count at the maximum, denies the request without resetting. -/
theorem C3_counterexample :
    getRateLimitConfig "https://api.coingecko.com/x" = some
      { domain := "coingecko.com", maxRequests := 3, windowMs := 60000,
        cacheMs := 300000,
        description := "CoinGecko free tier: 3 requests per minute" } ∧
    (60000 : Int) - 0 ≥ (60000 : Int) ∧
    isRateLimited 60000
      [("https://api.coingecko.com/x", { timestamp := 0, count := 3 })]
      "https://api.coingecko.com/x" =
      (true, [("https://api.coingecko.com/x",
               { timestamp := 0, count := 3 })]) := by
  refine ⟨by decide, by decide, ?_⟩
  decide

/-- C3 (amended): the rate limiter is a fixed window keyed by the raw URL:
first request starts a window with count 1 and is allowed; a request with
`now - windowStart > windowMs` (strictly) starts a fresh window and is
allowed; inside the window (`now - windowStart ≤ windowMs`) a request with
count < maxRequests increments and is allowed, and one with
count ≥ maxRequests is denied without incrementing. -/
theorem C3_fixed_window (url : String) (config : ApiRateLimitConfig)
    (now : Int) (q : List (String × RateEntry))
    (hcfg : getRateLimitConfig url = some config) :
    (jget q url = none →
      isRateLimited now q url =
        (false, jset q url { timestamp := now, count := 1 })) ∧
    (∀ e, jget q url = some e →
      now - e.timestamp > (config.windowMs : Int) →
      isRateLimited now q url =
        (false, jset q url { timestamp := now, count := 1 })) ∧
    (∀ e, jget q url = some e →
      now - e.timestamp ≤ (config.windowMs : Int) →
      e.count < config.maxRequests →
      isRateLimited now q url =
        (false, jset q url
          { timestamp := e.timestamp, count := e.count + 1 })) ∧
    (∀ e, jget q url = some e →
      now - e.timestamp ≤ (config.windowMs : Int) →
      e.count ≥ config.maxRequests →
      isRateLimited now q url = (true, q)) := by
  refine ⟨?_, ?_, ?_, ?_⟩
  · intro h
    simp [isRateLimited, hcfg, h]
  · intro e he hgt
    simp [isRateLimited, hcfg, he, hgt]
  · intro e he hle hcount
    simp [isRateLimited, hcfg, he, not_lt.mpr hle, not_le.mpr hcount]
  · intro e he hle hcount
    simp [isRateLimited, hcfg, he, not_lt.mpr hle, hcount]

/-- C3 witness: the deny case of the amended statement at a concrete input
(window not yet elapsed, count at the maximum). -/
theorem C3_fixed_window_witness :
    isRateLimited 30000
      [("https://api.coingecko.com/x", { timestamp := 0, count := 3 })]
      "https://api.coingecko.com/x" =
      (true,
       [("https://api.coingecko.com/x", { timestamp := 0, count := 3 })]) :=
  (C3_fixed_window "https://api.coingecko.com/x"
      { domain := "coingecko.com", maxRequests := 3, windowMs := 60000,
        cacheMs := 300000,
        description := "CoinGecko free tier: 3 requests per minute" }
      30000 _ (by decide)).2.2.2
    { timestamp := 0, count := 3 } (by decide) (by decide) (by decide)

/-- C1 counterexample: an entry whose age equals its TTL (expired per the
claim, `now - timestamp ≥ ttl`) and which the reaper has not yet evicted is
still served by the cache probe with a HIT marker — it is not treated as
absent. -/
theorem C1_counterexample :
    (300000 : Int) - 0 ≥ (300000 : Int) ∧
    (GET (fun _ => true)
        (FetchResult.resp 200 "OK" (some "application/json") ""
          (JsonResult.ok "fresh"))
        300000
        [("https://api.coingecko.com/x",
          { data := "stale", timestamp := 0, ttl := 300000 })] []
        { url := some "https://api.coingecko.com/x", skipCache := none,
          apiKey := none }).response =
      { status := 200, body := Body.data "stale",
        headers := [("X-Cache", "HIT"),
                    ("Cache-Control", "public, max-age=300")] ++
          corsHeaders } := by
  refine ⟨by decide, ?_⟩
  decide

/-- C1 (amended): the cache probe performs no expiry check: any entry
present under the cache key is served (with a HIT marker), even one with
`now - timestamp ≥ ttl`; an entry is servable iff it is present in the map,
and expiry is enforced only by the periodic reaper sweep. -/
theorem C1_stale_entry_served (validURL : String → Bool) (fr : FetchResult)
    (now : Int) (cache : List (String × CacheEntry))
    (q : List (String × RateEntry)) (url : String) (apiKey : Option String)
    (e : CacheEntry)
    (hv : validURL url = true) (hc : shouldCacheApi url = true)
    (hk : jget cache (cacheKey url apiKey) = some e)
    (hexp : now - e.timestamp ≥ e.ttl) :
    (GET validURL fr now cache q
        { url := some url, skipCache := none,
          apiKey := apiKey }).response.body = Body.data e.data ∧
    servedFromCache (GET validURL fr now cache q
        { url := some url, skipCache := none, apiKey := apiKey }) = true := by
  simp [GET, hv, hc, hk, servedFromCache]

/-- C1 witness: the amended statement at a concrete expired entry. -/
theorem C1_stale_entry_served_witness :
    (GET (fun _ => true)
        (FetchResult.thrown { name := "", message := "", code := "" })
        600000
        [("https://api.coingecko.com/y",
          { data := "old", timestamp := 0, ttl := 300000 })] []
        { url := some "https://api.coingecko.com/y", skipCache := none,
          apiKey := none }).response.body = Body.data "old" ∧
    servedFromCache (GET (fun _ => true)
        (FetchResult.thrown { name := "", message := "", code := "" })
        600000
        [("https://api.coingecko.com/y",
          { data := "old", timestamp := 0, ttl := 300000 })] []
        { url := some "https://api.coingecko.com/y", skipCache := none,
          apiKey := none }) = true :=
  C1_stale_entry_served (fun _ => true)
    (FetchResult.thrown { name := "", message := "", code := "" }) 600000
    [("https://api.coingecko.com/y",
      { data := "old", timestamp := 0, ttl := 300000 })] []
    "https://api.coingecko.com/y" none
    { data := "old", timestamp := 0, ttl := 300000 }
    rfl (by decide) (by decide) (by decide)

/-- C4: with a syntactically valid cacheable URL, skipCache unset, and a
servable entry present under the cache key, the handler returns the cached
payload with a HIT marker and leaves the rate-limiter map untouched (no
slot consumed) and performs no outbound fetch. -/
theorem C4_cache_hit_skips_rate_limiter (validURL : String → Bool)
    (fr : FetchResult) (now : Int) (cache : List (String × CacheEntry))
    (q : List (String × RateEntry)) (url : String)
    (sk apiKey : Option String) (e : CacheEntry)
    (hv : validURL url = true) (hsk : (sk == some "true") = false)
    (hc : shouldCacheApi url = true)
    (hk : jget cache (cacheKey url apiKey) = some e)
    (hserv : now - e.timestamp < e.ttl) :
    GET validURL fr now cache q
        { url := some url, skipCache := sk, apiKey := apiKey } =
      { response :=
          { status := 200, body := Body.data e.data,
            headers :=
              [("X-Cache", "HIT"),
               ("Cache-Control",
                "public, max-age=" ++
                  toString (getCacheDuration url / 1000))] ++ corsHeaders },
        cache := cache, requestQueue := q, fetched := false,
        sentHeaders := [] } := by
  simp [GET, hv, hsk, hc, hk]

/-- C4 witness: a concrete fresh cache hit leaves the rate limiter alone. -/
theorem C4_cache_hit_skips_rate_limiter_witness :
    GET (fun _ => true)
        (FetchResult.thrown { name := "", message := "", code := "" }) 1000
        [("https://api.coingecko.com/z",
          { data := "p", timestamp := 0, ttl := 300000 })]
        [("https://api.coingecko.com/z", { timestamp := 0, count := 3 })]
        { url := some "https://api.coingecko.com/z", skipCache := none,
          apiKey := none } =
      { response :=
          { status := 200, body := Body.data "p",
            headers :=
              [("X-Cache", "HIT"),
               ("Cache-Control",
                "public, max-age=" ++
                  toString
                    (getCacheDuration "https://api.coingecko.com/z" /
                      1000))] ++ corsHeaders },
        cache := [("https://api.coingecko.com/z",
                   { data := "p", timestamp := 0, ttl := 300000 })],
        requestQueue :=
          [("https://api.coingecko.com/z", { timestamp := 0, count := 3 })],
        fetched := false, sentHeaders := [] } :=
  C4_cache_hit_skips_rate_limiter (fun _ => true)
    (FetchResult.thrown { name := "", message := "", code := "" }) 1000
    [("https://api.coingecko.com/z",
      { data := "p", timestamp := 0, ttl := 300000 })]
    [("https://api.coingecko.com/z", { timestamp := 0, count := 3 })]
    "https://api.coingecko.com/z" none none
    { data := "p", timestamp := 0, ttl := 300000 }
    rfl (by decide) (by decide) (by decide) (by decide)

/-- C5: a missing `url` parameter, or one the URL parser rejects, yields an
immediate 400 client error with no side effects: cache and rate-limiter
maps are returned unchanged and no outbound fetch is performed. -/
theorem C5_invalid_url_no_side_effects (validURL : String → Bool)
    (fr : FetchResult) (now : Int) (cache : List (String × CacheEntry))
    (q : List (String × RateEntry)) (sk apiKey : Option String) :
    (GET validURL fr now cache q
        { url := none, skipCache := sk, apiKey := apiKey } =
      { response := { status := 400,
                      body := Body.error "URL parameter is required",
                      headers := [] },
        cache := cache, requestQueue := q, fetched := false,
        sentHeaders := [] }) ∧
    (∀ u, validURL u = false →
      GET validURL fr now cache q
          { url := some u, skipCache := sk, apiKey := apiKey } =
        { response := { status := 400,
                        body := Body.error "Invalid URL provided",
                        headers := [] },
          cache := cache, requestQueue := q, fetched := false,
          sentHeaders := [] }) := by
  constructor
  · simp [GET]
  · intro u hu
    simp [GET, hu]

/-- C5 witness: both invalid-input cases at concrete inputs. -/
theorem C5_invalid_url_no_side_effects_witness :
    (GET (fun _ => false)
        (FetchResult.thrown { name := "", message := "", code := "" }) 0
        [] [] { url := none, skipCache := none, apiKey := none } =
      { response := { status := 400,
                      body := Body.error "URL parameter is required",
                      headers := [] },
        cache := [], requestQueue := [], fetched := false,
        sentHeaders := [] }) ∧
    GET (fun _ => false)
        (FetchResult.thrown { name := "", message := "", code := "" }) 0
        [] [] { url := some "not a url", skipCache := none, apiKey := none } =
      { response := { status := 400,
                      body := Body.error "Invalid URL provided",
                      headers := [] },
        cache := [], requestQueue := [], fetched := false,
        sentHeaders := [] } :=
  ⟨(C5_invalid_url_no_side_effects (fun _ => false)
      (FetchResult.thrown { name := "", message := "", code := "" }) 0
      [] [] none none).1,
   (C5_invalid_url_no_side_effects (fun _ => false)
      (FetchResult.thrown { name := "", message := "", code := "" }) 0
      [] [] none none).2 "not a url" rfl⟩

/-- C6: with `skipCache=true` and a cacheable URL, a request that forwards
successfully ignores the cache for its read (the result is a MISS even if a
warm entry exists — the cache argument is arbitrary) but still writes the
fresh payload under the (url, apiKey) cache key with the policy TTL. -/
theorem C6_skip_cache_still_writes (validURL : String → Bool) (now : Int)
    (cache : List (String × CacheEntry)) (q : List (String × RateEntry))
    (url ct : String) (apiKey : Option String) (status : Nat)
    (statusText bodyText data : String)
    (hv : validURL url = true) (hc : shouldCacheApi url = true)
    (hlo : 200 ≤ status) (hhi : status ≤ 299)
    (hct : strIncludes ct "application/json" = true)
    (hrl : (isRateLimited now q url).1 = false) :
    GET validURL
        (FetchResult.resp status statusText (some ct) bodyText
          (JsonResult.ok data))
        now cache q
        { url := some url, skipCache := some "true", apiKey := apiKey } =
      { response :=
          { status := 200, body := Body.data data,
            headers :=
              [("X-Cache", "MISS"),
               ("Cache-Control",
                "public, max-age=" ++
                  toString (getCacheDuration url / 1000))] ++ corsHeaders },
        cache := jset cache (cacheKey url apiKey)
          { data := data, timestamp := now,
            ttl := (getCacheDuration url : Int) },
        requestQueue := (isRateLimited now q url).2,
        fetched := true, sentHeaders := outboundHeaders url apiKey } := by
  have h429 : (status == 429) = false := by
    have : status ≠ 429 := by omega
    simp [this]
  simp [GET, hv, hrl, handleFetch, h429, hlo, hhi, ctIsJson, hct, hc]

/-- C6 witness: skipCache=true with a warm entry present is still a MISS
and refreshes the cache. -/
theorem C6_skip_cache_still_writes_witness :
    GET (fun _ => true)
        (FetchResult.resp 200 "OK" (some "application/json") "body"
          (JsonResult.ok "fresh"))
        7
        [("https://api.coingecko.com/x",
          { data := "warm", timestamp := 0, ttl := 300000 })] []
        { url := some "https://api.coingecko.com/x",
          skipCache := some "true", apiKey := none } =
      { response :=
          { status := 200, body := Body.data "fresh",
            headers :=
              [("X-Cache", "MISS"),
               ("Cache-Control",
                "public, max-age=" ++
                  toString
                    (getCacheDuration "https://api.coingecko.com/x" /
                      1000))] ++ corsHeaders },
        cache := jset
          [("https://api.coingecko.com/x",
            { data := "warm", timestamp := 0, ttl := 300000 })]
          (cacheKey "https://api.coingecko.com/x" none)
          { data := "fresh", timestamp := 7,
            ttl := (getCacheDuration "https://api.coingecko.com/x" : Int) },
        requestQueue :=
          (isRateLimited 7 [] "https://api.coingecko.com/x").2,
        fetched := true,
        sentHeaders := outboundHeaders "https://api.coingecko.com/x" none } :=
  C6_skip_cache_still_writes (fun _ => true) 7
    [("https://api.coingecko.com/x",
      { data := "warm", timestamp := 0, ttl := 300000 })] []
    "https://api.coingecko.com/x" "application/json" none 200 "OK" "body"
    "fresh" rfl (by decide) (by decide) (by decide) (by decide) (by decide)

/-- C7 counterexample: a 2xx upstream response with JSON content-type whose
body fails to parse is not turned into the dedicated parse/format error
(which is a 400 carrying `formatErrorMessage`): it falls into the generic
catch and yields a 500 carrying the raw exception message. -/
theorem C7_counterexample :
    (handleFetch "https://example.com/a" none 0 [] []
        (FetchResult.resp 200 "OK" (some "application/json") ""
          (JsonResult.failed
            { name := "SyntaxError",
              message := "Unexpected end of JSON input",
              code := "" }))).response =
      { status := 500,
        body := Body.error "Unexpected end of JSON input",
        headers := [] } ∧
    "Unexpected end of JSON input" ≠ formatErrorMessage ∧
    (500 : Nat) ≠ 400 := by
  refine ⟨by decide, by decide, by decide⟩

/-- C7 (amended): upstream outcomes are classified as: upstream 429 ⇒ a 429
with the upstream-throttling message, distinct from every local rate-limit
denial message; 401/403, or a 400 whose body suggests a credential issue ⇒
an authentication-class error message; any other non-2xx ⇒ a generic HTTP
error carrying the upstream status and status text; a 2xx whose
content-type is not JSON ⇒ the parse/format error (400); a 2xx whose body
fails to parse as JSON falls into the generic exception handler and yields
a 500 carrying the exception message (not the dedicated format error); a
timeout or abort ⇒ the timeout error; in every non-success case the
upstream payload is not forwarded as data. -/
theorem C7_upstream_classification (url : String) (apiKey : Option String)
    (now : Int) (cache : List (String × CacheEntry))
    (q : List (String × RateEntry)) (status : Nat)
    (statusText bodyText : String) (contentType : Option String)
    (json : JsonResult) (e : JsError) :
    ((handleFetch url apiKey now cache q
        (FetchResult.resp 429 statusText contentType bodyText
          json)).response =
      { status := 429, body := Body.error upstreamThrottleMessage,
        headers := [] }) ∧
    (∀ u, upstreamThrottleMessage ≠ localRateLimitMessage u) ∧
    ((handleFetch url apiKey now cache q
        (FetchResult.resp 401 statusText contentType bodyText
          json)).response =
      { status := 401,
        body := Body.error "Unauthorized: API key required or invalid",
        headers := [] }) ∧
    ((handleFetch url apiKey now cache q
        (FetchResult.resp 403 statusText contentType bodyText
          json)).response =
      { status := 403,
        body := Body.error
          "Forbidden: Invalid API key or insufficient permissions",
        headers := [] }) ∧
    (suggestsCredentialIssue bodyText = true →
      (handleFetch url apiKey now cache q
        (FetchResult.resp 400 statusText contentType bodyText
          json)).response =
      { status := 400,
        body := Body.error "Bad Request: API key required for this endpoint",
        headers := [] }) ∧
    (¬(200 ≤ status ∧ status ≤ 299) → status ≠ 429 → status ≠ 401 →
      status ≠ 403 →
      (status = 400 → suggestsCredentialIssue bodyText = false) →
      (handleFetch url apiKey now cache q
        (FetchResult.resp status statusText contentType bodyText
          json)).response =
      { status := status,
        body := Body.error
          ("HTTP error! status: " ++ toString status ++ " - " ++ statusText),
        headers := [] }) ∧
    (200 ≤ status → status ≤ 299 → ctIsJson contentType = false →
      (handleFetch url apiKey now cache q
        (FetchResult.resp status statusText contentType bodyText
          json)).response =
      { status := 400, body := Body.error formatErrorMessage,
        headers := [] }) ∧
    (200 ≤ status → status ≤ 299 → ctIsJson contentType = true →
      (handleFetch url apiKey now cache q
        (FetchResult.resp status statusText contentType bodyText
          (JsonResult.failed e))).response =
      { status := 500, body := Body.error (classifyCatch e),
        headers := [] }) ∧
    ((e.name = "AbortError" ∨ e.name = "TimeoutError") →
      (handleFetch url apiKey now cache q (FetchResult.thrown e)).response =
      { status := 500,
        body := Body.error
          "Request timed out. Please check if the API is accessible.",
        headers := [] }) := by
  refine ⟨?_, ?_, ?_, ?_, ?_, ?_, ?_, ?_, ?_⟩
  · simp [handleFetch]
  · intro u
    rcases getRateLimitConfig_cases u with h | h <;>
      simp [localRateLimitMessage, h, upstreamThrottleMessage]
  · simp [handleFetch, upstreamErrorMessage]
  · simp [handleFetch, upstreamErrorMessage]
  · intro hcred
    simp [handleFetch, upstreamErrorMessage, hcred]
  · intro hnot2 h429 h401 h403 hcred
    have e429 : (status == 429) = false := by simp [h429]
    have eok : (decide (200 ≤ status) && decide (status ≤ 299)) = false := by
      rcases Nat.lt_or_ge status 200 with h | h
      · simp [Nat.not_le.mpr h]
      · have : ¬ status ≤ 299 := fun hle => hnot2 ⟨h, hle⟩
        simp [this]
    by_cases h400 : status = 400
    · subst h400
      simp [handleFetch, upstreamErrorMessage, hcred rfl]
    · simp [handleFetch, upstreamErrorMessage, e429, eok, h401, h403, h400]
  · intro hlo hhi hct
    have e429 : (status == 429) = false := by
      have : status ≠ 429 := by omega
      simp [this]
    simp [handleFetch, e429, hlo, hhi, hct]
  · intro hlo hhi hct
    have e429 : (status == 429) = false := by
      have : status ≠ 429 := by omega
      simp [this]
    simp [handleFetch, e429, hlo, hhi, hct]
  · intro hname
    have hb : (e.name == "AbortError" || e.name == "TimeoutError") = true := by
      rcases hname with h | h <;> simp [h]
    simp [handleFetch, classifyCatch, hb]

/-- C7 witness: the classification applied at concrete upstream outcomes
(credential-flavoured 400, generic 500, non-JSON 2xx, parse failure,
timeout). -/
theorem C7_upstream_classification_witness :
    ((handleFetch "https://example.com/a" none 0 [] []
        (FetchResult.resp 400 "Bad Request" none "API key missing"
          (JsonResult.ok "x"))).response =
      { status := 400,
        body := Body.error "Bad Request: API key required for this endpoint",
        headers := [] }) ∧
    ((handleFetch "https://example.com/a" none 0 [] []
        (FetchResult.resp 500 "Internal Server Error" none ""
          (JsonResult.ok "x"))).response =
      { status := 500,
        body := Body.error "HTTP error! status: 500 - Internal Server Error",
        headers := [] }) ∧
    ((handleFetch "https://example.com/a" none 0 [] []
        (FetchResult.resp 200 "OK" (some "text/html") "<p>"
          (JsonResult.ok "x"))).response =
      { status := 400, body := Body.error formatErrorMessage,
        headers := [] }) ∧
    ((handleFetch "https://example.com/a" none 0 [] []
        (FetchResult.resp 200 "OK" (some "application/json") ""
          (JsonResult.failed
            { name := "SyntaxError", message := "bad json",
              code := "" }))).response =
      { status := 500, body := Body.error (classifyCatch
          { name := "SyntaxError", message := "bad json", code := "" }),
        headers := [] }) ∧
    ((handleFetch "https://example.com/a" none 0 [] []
        (FetchResult.thrown
          { name := "TimeoutError", message := "", code := "" })).response =
      { status := 500,
        body := Body.error
          "Request timed out. Please check if the API is accessible.",
        headers := [] }) :=
  ⟨(C7_upstream_classification "https://example.com/a" none 0 [] [] 0
      "Bad Request" "API key missing" none (JsonResult.ok "x")
      { name := "", message := "", code := "" }).2.2.2.2.1 (by decide),
   (C7_upstream_classification "https://example.com/a" none 0 [] [] 500
      "Internal Server Error" "" none (JsonResult.ok "x")
      { name := "", message := "", code := "" }).2.2.2.2.2.1
     (by omega) (by decide) (by decide) (by decide)
     (fun h => absurd h (by decide)),
   (C7_upstream_classification "https://example.com/a" none 0 [] [] 200
      "OK" "<p>" (some "text/html") (JsonResult.ok "x")
      { name := "", message := "", code := "" }).2.2.2.2.2.2.1
     (by decide) (by decide) (by decide),
   (C7_upstream_classification "https://example.com/a" none 0 [] [] 200
      "OK" "" (some "application/json") (JsonResult.ok "x")
      { name := "SyntaxError", message := "bad json",
        code := "" }).2.2.2.2.2.2.2.1 (by decide) (by decide) (by decide),
   (C7_upstream_classification "https://example.com/a" none 0 [] [] 0 ""
      "" none (JsonResult.ok "x")
      { name := "TimeoutError", message := "",
        code := "" }).2.2.2.2.2.2.2.2 (Or.inr rfl)⟩

/-- Shape of every response the try/catch block can produce: an error body
with no explicit headers, or a 200 payload with cache-status, cache-control
and CORS headers. -/
theorem handleFetch_shape (url : String) (apiKey : Option String) (now : Int)
    (cache : List (String × CacheEntry)) (q : List (String × RateEntry))
    (fr : FetchResult) :
    (∃ s m, (handleFetch url apiKey now cache q fr).response =
      { status := s, body := Body.error m, headers := [] }) ∨
    (∃ d v w, (handleFetch url apiKey now cache q fr).response =
      { status := 200, body := Body.data d,
        headers := [("X-Cache", v), ("Cache-Control", w)] ++
          corsHeaders }) := by
  unfold handleFetch
  split
  · exact Or.inl ⟨_, _, rfl⟩
  · split
    · exact Or.inl ⟨_, _, rfl⟩
    · split
      · exact Or.inl ⟨_, _, rfl⟩
      · split
        · exact Or.inl ⟨_, _, rfl⟩
        · split
          · exact Or.inl ⟨_, _, rfl⟩
          · exact Or.inr ⟨_, _, _, rfl⟩

/-- Shape of every response the `GET` handler can produce. -/
theorem GET_shape (validURL : String → Bool) (fr : FetchResult) (now : Int)
    (cache : List (String × CacheEntry)) (q : List (String × RateEntry))
    (req : ProxyRequest) :
    (∃ s m, (GET validURL fr now cache q req).response =
      { status := s, body := Body.error m, headers := [] }) ∨
    (∃ d v w, (GET validURL fr now cache q req).response =
      { status := 200, body := Body.data d,
        headers := [("X-Cache", v), ("Cache-Control", w)] ++
          corsHeaders }) := by
  simp only [GET]
  split
  · exact Or.inl ⟨_, _, rfl⟩
  · split
    · exact Or.inl ⟨_, _, rfl⟩
    · split
      · exact Or.inr ⟨_, _, _, rfl⟩
      · split
        · exact Or.inl ⟨_, _, rfl⟩
        · exact handleFetch_shape _ _ _ _ _ _

/-- C8 counterexample: the missing-URL error response carries no headers at
all — in particular no `Access-Control-Allow-Origin` CORS header. -/
theorem C8_counterexample :
    ("Access-Control-Allow-Origin", "*") ∉
      (GET (fun _ => true)
        (FetchResult.thrown { name := "", message := "", code := "" }) 0 []
        [] { url := none, skipCache := none,
             apiKey := none }).response.headers ∧
    (GET (fun _ => true)
        (FetchResult.thrown { name := "", message := "", code := "" }) 0 []
        [] { url := none, skipCache := none,
             apiKey := none }).response.status = 400 := by
  refine ⟨by decide, by decide⟩

/-- C8 (amended): a `GET` response carries the permissive CORS header iff it
is a success (payload) response — cache hits and fresh successes carry the
CORS headers plus a cache-status indicator and a `Cache-Control` hint,
while every error response is returned with no explicit headers at all. -/
theorem C8_cors_only_on_success (validURL : String → Bool)
    (fr : FetchResult) (now : Int) (cache : List (String × CacheEntry))
    (q : List (String × RateEntry)) (req : ProxyRequest) :
    ((("Access-Control-Allow-Origin", "*") ∈
        (GET validURL fr now cache q req).response.headers) ↔
      (GET validURL fr now cache q req).response.body.isData = true) ∧
    (∀ m, (GET validURL fr now cache q req).response.body = Body.error m →
      (GET validURL fr now cache q req).response.headers = []) ∧
    ((GET validURL fr now cache q req).response.body.isData = true →
      ∃ v w, (GET validURL fr now cache q req).response.headers =
        [("X-Cache", v), ("Cache-Control", w)] ++ corsHeaders) := by
  rcases GET_shape validURL fr now cache q req with ⟨s, m, h⟩ | ⟨d, v, w, h⟩
  · rw [h]
    refine ⟨by simp [Body.isData], fun _ _ => rfl, by simp [Body.isData]⟩
  · rw [h]
    refine ⟨by simp [Body.isData, corsHeaders], ?_, fun _ => ⟨v, w, rfl⟩⟩
    intro m hm
    cases hm

/-- C8 witness: the missing-URL error response has no headers, via the
amended theorem at a concrete request. -/
theorem C8_cors_only_on_success_witness :
    (GET (fun _ => true)
        (FetchResult.thrown { name := "", message := "", code := "" }) 0 []
        [] { url := none, skipCache := none,
             apiKey := none }).response.headers = [] :=
  (C8_cors_only_on_success (fun _ => true)
      (FetchResult.thrown { name := "", message := "", code := "" }) 0 []
      [] { url := none, skipCache := none, apiKey := none }).2.1
    "URL parameter is required" (by decide)

/-- The try/catch block treats an empty-string apiKey exactly like an
absent one (JS falsiness): same outbound headers, same cache key. -/
theorem handleFetch_empty_key (url : String) (now : Int)
    (cache : List (String × CacheEntry)) (q : List (String × RateEntry))
    (fr : FetchResult) :
    handleFetch url (some "") now cache q fr =
      handleFetch url none now cache q fr := by
  cases fr <;> simp [handleFetch, outboundHeaders, truthy, cacheKey]

/-- C9: the `skipCache` flag is recognized only for the exact string
"true" — any other value (or absence) leaves the cache read in place — and
an empty-string `apiKey` is treated as absent: it changes nothing about the
run, is not folded into the cache key, and no `X-Api-Key` header is
attached to the outbound request. -/
theorem C9_strict_flag_parsing (validURL : String → Bool)
    (fr : FetchResult) (now : Int) (cache : List (String × CacheEntry))
    (q : List (String × RateEntry)) (url s : String)
    (sk apiKey : Option String) (hs : s ≠ "true") :
    (GET validURL fr now cache q
        { url := some url, skipCache := some s, apiKey := apiKey } =
      GET validURL fr now cache q
        { url := some url, skipCache := none, apiKey := apiKey }) ∧
    (GET validURL fr now cache q
        { url := some url, skipCache := sk, apiKey := some "" } =
      GET validURL fr now cache q
        { url := some url, skipCache := sk, apiKey := none }) ∧
    cacheKey url (some "") = cacheKey url none ∧
    (∀ v, ("X-Api-Key", v) ∉ outboundHeaders url (some "")) := by
  have hbe : (s == "true") = false := by simp [hs]
  refine ⟨?_, ?_, by simp [cacheKey, truthy], ?_⟩
  · simp [GET, hbe]
  · simp [GET, cacheKey, truthy, handleFetch_empty_key]
  · intro v
    unfold outboundHeaders
    cases h : strIncludes url "coingecko.com" <;> simp [truthy, h]

/-- C9 witness: `skipCache=TRUE` (wrong case) does not bypass the read, and
an empty apiKey is absent, at concrete inputs. -/
theorem C9_strict_flag_parsing_witness :
    (GET (fun _ => true)
        (FetchResult.thrown { name := "", message := "", code := "" }) 0
        [] []
        { url := some "https://api.coingecko.com/x",
          skipCache := some "TRUE", apiKey := none } =
      GET (fun _ => true)
        (FetchResult.thrown { name := "", message := "", code := "" }) 0
        [] []
        { url := some "https://api.coingecko.com/x", skipCache := none,
          apiKey := none }) ∧
    cacheKey "https://api.coingecko.com/x" (some "") =
      cacheKey "https://api.coingecko.com/x" none :=
  ⟨(C9_strict_flag_parsing (fun _ => true)
      (FetchResult.thrown { name := "", message := "", code := "" }) 0 []
      [] "https://api.coingecko.com/x" "TRUE" none none (by decide)).1,
   (C9_strict_flag_parsing (fun _ => true)
      (FetchResult.thrown { name := "", message := "", code := "" }) 0 []
      [] "https://api.coingecko.com/x" "TRUE" none none (by decide)).2.2.1⟩

/-- C10: the format error for a 2xx non-JSON upstream response is returned
with status 400, the same status the handler uses for its own missing-URL
and malformed-URL client errors, so the two are distinguishable only by
message text (and the messages do differ). -/
theorem C10_format_error_status_overlap (url : String)
    (apiKey : Option String) (now : Int)
    (cache : List (String × CacheEntry)) (q : List (String × RateEntry))
    (status : Nat) (statusText bodyText : String)
    (contentType : Option String) (json : JsonResult)
    (hlo : 200 ≤ status) (hhi : status ≤ 299)
    (hct : ctIsJson contentType = false) :
    (handleFetch url apiKey now cache q
        (FetchResult.resp status statusText contentType bodyText
          json)).response =
      { status := 400, body := Body.error formatErrorMessage,
        headers := [] } ∧
    (∀ (validURL : String → Bool) fr now2 c2 q2 sk k,
      (GET validURL fr now2 c2 q2
        { url := none, skipCache := sk,
          apiKey := k }).response.status = 400) ∧
    (∀ (validURL : String → Bool) fr now2 c2 q2 sk k u,
      validURL u = false →
      (GET validURL fr now2 c2 q2
        { url := some u, skipCache := sk,
          apiKey := k }).response.status = 400) ∧
    formatErrorMessage ≠ "Invalid URL provided" ∧
    formatErrorMessage ≠ "URL parameter is required" := by
  have e429 : (status == 429) = false := by
    have : status ≠ 429 := by omega
    simp [this]
  refine ⟨by simp [handleFetch, e429, hlo, hhi, hct], ?_, ?_, by decide,
    by decide⟩
  · intro validURL fr now2 c2 q2 sk k
    simp [GET]
  · intro validURL fr now2 c2 q2 sk k u hu
    simp [GET, hu]

/-- C10 witness: a concrete non-JSON 200 and a concrete malformed-URL
request both come back with status 400. -/
theorem C10_format_error_status_overlap_witness :
    (handleFetch "https://example.com/a" none 0 [] []
        (FetchResult.resp 200 "OK" (some "text/plain") "hello"
          (JsonResult.ok "x"))).response =
      { status := 400, body := Body.error formatErrorMessage,
        headers := [] } ∧
    (GET (fun _ => false)
        (FetchResult.thrown { name := "", message := "", code := "" }) 0 []
        [] { url := some "::bad::", skipCache := none,
             apiKey := none }).response.status = 400 :=
  ⟨(C10_format_error_status_overlap "https://example.com/a" none 0 [] []
      200 "OK" "hello" (some "text/plain") (JsonResult.ok "x") (by decide)
      (by decide) (by decide)).1,
   (C10_format_error_status_overlap "https://example.com/a" none 0 [] []
      200 "OK" "hello" (some "text/plain") (JsonResult.ok "x") (by decide)
      (by decide) (by decide)).2.2.1 (fun _ => false)
     (FetchResult.thrown { name := "", message := "", code := "" }) 0 []
     [] none none "::bad::" rfl⟩

end Finboard
